import Mathlib

/-!
Verification of the natural-language specification of the aws-c-mqtt 3.1.1
client core against `source/client.c`.

The development shallowly embeds the relevant parts of `client.c`:
connection states, the configuration setters and their state gate, the
SUBSCRIBE / UNSUBSCRIBE / PUBLISH / resubscribe send functions, the channel
shutdown handling of the pending and ongoing request lists, the
user-invoked disconnect entry point, the reconnect backoff update and the
connect-time option defaulting.  External collaborators that are out of
scope for the repository (the topic tree in `topic_tree.c`, the wire
encoders in `packets.c`, and the request engine in
`client_channel_handler.c`) are modelled from the specification where a
claim needs them; every such definition carries a doc comment starting
with the words Modelled from the spec.
-/

/-- The five connection lifecycle states of `enum aws_mqtt_client_connection_state`. -/
inductive aws_mqtt_client_connection_state
  | DISCONNECTED
  | CONNECTING
  | CONNECTED
  | RECONNECTING
  | DISCONNECTING
  deriving DecidableEq, Repr

/-- The error codes of the client core that the embedded functions can raise
or report through completion callbacks. -/
inductive aws_error
  | AWS_ERROR_SUCCESS
  | AWS_ERROR_INVALID_STATE
  | AWS_ERROR_MQTT_INVALID_TOPIC
  | AWS_ERROR_MQTT_NOT_CONNECTED
  | AWS_ERROR_MQTT_ALREADY_CONNECTED
  | AWS_ERROR_MQTT_TIMEOUT
  | AWS_ERROR_MQTT_UNEXPECTED_HANGUP
  | AWS_ERROR_MQTT_CANCELLED_FOR_CLEAN_SESSION
  | AWS_ERROR_MQTT_CONNECTION_DESTROYED
  deriving DecidableEq, Repr

/-- The result of a request send function, `enum aws_mqtt_client_request_state`. -/
inductive aws_mqtt_client_request_state
  | AWS_MQTT_CLIENT_REQUEST_ONGOING
  | AWS_MQTT_CLIENT_REQUEST_COMPLETE
  | AWS_MQTT_CLIENT_REQUEST_ERROR
  deriving DecidableEq, Repr

/-- The configuration attributes of a connection that the setter entry points
mutate (will, credentials, reconnect bounds, handler registrations).
Byte buffers and function pointers are abstracted to numbers and flags. -/
structure connection_config where
  will_topic : Option Nat
  will_qos : Nat
  will_retain : Bool
  will_payload : Option Nat
  username : Option Nat
  password : Option Nat
  reconnect_min_sec : Nat
  reconnect_max_sec : Nat
  on_interrupted_set : Bool
  on_resumed_set : Bool
  on_any_publish_set : Bool
  deriving DecidableEq, Repr

/-- A concrete connection configuration used by the closed theorems. -/
def default_config : connection_config :=
  { will_topic := none
    will_qos := 0
    will_retain := false
    will_payload := none
    username := none
    password := none
    reconnect_min_sec := 1
    reconnect_max_sec := 128
    on_interrupted_set := false
    on_resumed_set := false
    on_any_publish_set := false }

/-- `s_check_connection_state_for_configuration` from client.c: configuration
is allowed only while the state is DISCONNECTED or CONNECTED; the function
reports success (here `true`) exactly in those two states. -/
def s_check_connection_state_for_configuration
    (state : aws_mqtt_client_connection_state) : Bool :=
  if state ≠ .DISCONNECTED ∧ state ≠ .CONNECTED then false else true

/-- `aws_mqtt_client_connection_set_will`: gate on the connection state, then
validate the topic, then store topic, qos, retain and payload.  The
`topic_valid` flag stands for `aws_mqtt_is_valid_topic`, which lives outside
this repository. -/
def aws_mqtt_client_connection_set_will
    (state : aws_mqtt_client_connection_state) (cfg : connection_config)
    (topic : Nat) (topic_valid : Bool) (qos : Nat) (retain : Bool)
    (payload : Nat) : aws_error × connection_config :=
  if ¬ s_check_connection_state_for_configuration state then
    (.AWS_ERROR_INVALID_STATE, cfg)
  else if ¬ topic_valid then
    (.AWS_ERROR_MQTT_INVALID_TOPIC, cfg)
  else
    (.AWS_ERROR_SUCCESS,
      { cfg with
        will_topic := some topic
        will_qos := qos
        will_retain := retain
        will_payload := some payload })

/-- `aws_mqtt_client_connection_set_login`: gate on the connection state, then
store the username and the optional password. -/
def aws_mqtt_client_connection_set_login
    (state : aws_mqtt_client_connection_state) (cfg : connection_config)
    (username : Nat) (password : Option Nat) : aws_error × connection_config :=
  if ¬ s_check_connection_state_for_configuration state then
    (.AWS_ERROR_INVALID_STATE, cfg)
  else
    (.AWS_ERROR_SUCCESS, { cfg with username := some username, password := password })

/-- `aws_mqtt_client_connection_set_reconnect_timeout`: gate on the connection
state, then store the reconnect bounds. -/
def aws_mqtt_client_connection_set_reconnect_timeout
    (state : aws_mqtt_client_connection_state) (cfg : connection_config)
    (min_timeout max_timeout : Nat) : aws_error × connection_config :=
  if ¬ s_check_connection_state_for_configuration state then
    (.AWS_ERROR_INVALID_STATE, cfg)
  else
    (.AWS_ERROR_SUCCESS,
      { cfg with reconnect_min_sec := min_timeout, reconnect_max_sec := max_timeout })

/-- `aws_mqtt_client_connection_set_connection_interruption_handlers`: gate on
the connection state, then record the interruption and resumption handlers. -/
def aws_mqtt_client_connection_set_connection_interruption_handlers
    (state : aws_mqtt_client_connection_state) (cfg : connection_config) :
    aws_error × connection_config :=
  if ¬ s_check_connection_state_for_configuration state then
    (.AWS_ERROR_INVALID_STATE, cfg)
  else
    (.AWS_ERROR_SUCCESS, { cfg with on_interrupted_set := true, on_resumed_set := true })

/-- `aws_mqtt_client_connection_set_on_any_publish_handler`: this setter does
not call `s_check_connection_state_for_configuration`; it refuses only while
the state is CONNECTED (publishes may arrive anytime) and succeeds in every
other state. -/
def aws_mqtt_client_connection_set_on_any_publish_handler
    (state : aws_mqtt_client_connection_state) (cfg : connection_config) :
    aws_error × connection_config :=
  if state = .CONNECTED then
    (.AWS_ERROR_INVALID_STATE, cfg)
  else
    (.AWS_ERROR_SUCCESS, { cfg with on_any_publish_set := true })

/-- Modelled from the spec: the topic tree lives in `topic_tree.c`, which is
not among the sources; per the specification a transaction stages insert and
remove actions without mutating the visible tree, and committing a
transaction applies the staged actions.  The visible tree is the list of
inserted topic filters (abstracted to numbers) and committing staged inserts
appends them. -/
def aws_mqtt_topic_tree_transaction_commit (subscriptions tx : List Nat) : List Nat :=
  subscriptions ++ tx

/-- Modelled from the spec: rolling a transaction back discards the staged
actions, leaving the visible tree exactly as it was. -/
def aws_mqtt_topic_tree_transaction_roll_back (subscriptions : List Nat)
    (_tx : List Nat) : List Nat :=
  subscriptions

/-- Success and failure of the fallible steps inside `s_subscribe_send`:
packet initialization, per-topic packet append, per-topic transactional
insert, message acquisition, encoding, and the transport write. -/
structure subscribe_send_env where
  packet_init_ok : Bool
  add_topic_ok : Nat → Bool
  transaction_insert_ok : Nat → Bool
  message_ok : Bool
  encode_ok : Bool
  write_ok : Bool

/-- The per-topic loop of `s_subscribe_send`: when the packet is being
initialized each topic is appended to it, and when the tree has not been
updated yet each topic filter is staged as a transactional insert.  Returns
the staged transaction, or `none` when a step fails (the `handle_error`
path). -/
def s_subscribe_stage (env : subscribe_send_env) (initing_packet tree_updated : Bool) :
    List Nat → Nat → Option (List Nat)
  | [], _ => some []
  | f :: rest, i =>
    if initing_packet ∧ ¬ env.add_topic_ok i then none
    else if ¬ tree_updated ∧ ¬ env.transaction_insert_ok i then none
    else
      match s_subscribe_stage env initing_packet tree_updated rest (i + 1) with
      | none => none
      | some tx => some (if tree_updated then tx else f :: tx)

/-- Everything a SUBSCRIBE send attempt leaves behind: the request state it
reports, the visible topic tree, the task's `tree_updated` flag, whether the
framed packet was actually handed to the transport, and whether an operation
timeout task was armed. -/
structure subscribe_send_result where
  request_state : aws_mqtt_client_request_state
  subscriptions : List Nat
  tree_updated : Bool
  packet_written : Bool
  timeout_task_armed : Bool
  deriving DecidableEq, Repr

/-- `s_subscribe_send` from client.c.  Faithful control flow: a failure of
packet init, topic append, transactional insert, message acquisition or
encoding takes the `handle_error` path, which rolls the transaction back and
reports ERROR; a failure of `aws_channel_slot_send_message` only releases
the message — the transaction is still committed and the function reports
ONGOING so the request is retried later.  No operation timeout task is armed
anywhere in this function. -/
def s_subscribe_send (env : subscribe_send_env) (initing_packet : Bool)
    (topics : List Nat) (subscriptions : List Nat) (tree_updated : Bool) :
    subscribe_send_result :=
  if initing_packet ∧ ¬ env.packet_init_ok then
    ⟨.AWS_MQTT_CLIENT_REQUEST_ERROR, subscriptions, tree_updated, false, false⟩
  else if topics.length = 0 then
    ⟨.AWS_MQTT_CLIENT_REQUEST_ERROR, subscriptions, tree_updated, false, false⟩
  else
    match s_subscribe_stage env initing_packet tree_updated topics 0 with
    | none =>
      ⟨.AWS_MQTT_CLIENT_REQUEST_ERROR,
        aws_mqtt_topic_tree_transaction_roll_back subscriptions [],
        tree_updated, false, false⟩
    | some tx =>
      if ¬ env.message_ok then
        ⟨.AWS_MQTT_CLIENT_REQUEST_ERROR,
          aws_mqtt_topic_tree_transaction_roll_back subscriptions tx,
          tree_updated, false, false⟩
      else if ¬ env.encode_ok then
        ⟨.AWS_MQTT_CLIENT_REQUEST_ERROR,
          aws_mqtt_topic_tree_transaction_roll_back subscriptions tx,
          tree_updated, false, false⟩
      else if ¬ tree_updated then
        ⟨.AWS_MQTT_CLIENT_REQUEST_ONGOING,
          aws_mqtt_topic_tree_transaction_commit subscriptions tx,
          true, env.write_ok, false⟩
      else
        ⟨.AWS_MQTT_CLIENT_REQUEST_ONGOING, subscriptions, tree_updated,
          env.write_ok, false⟩

/-- An environment in which every step of a send attempt succeeds. -/
def env_all_ok : subscribe_send_env :=
  { packet_init_ok := true
    add_topic_ok := fun _ => true
    transaction_insert_ok := fun _ => true
    message_ok := true
    encode_ok := true
    write_ok := true }

/-- An environment in which only the transport write fails. -/
def env_write_fail : subscribe_send_env :=
  { packet_init_ok := true
    add_topic_ok := fun _ => true
    transaction_insert_ok := fun _ => true
    message_ok := true
    encode_ok := true
    write_ok := false }

/-- The largest value of a 64-bit unsigned integer. -/
def UINT64_MAX : Nat := 18446744073709551615

/-- Modelled from the spec: the PUBLISH packet encoder lives in `packets.c`,
which is out of scope; a packet records the fixed-header flags and identity
fields handed to `aws_mqtt_packet_publish_init`. -/
structure aws_mqtt_packet_publish where
  retain : Bool
  qos : Nat
  dup : Bool
  topic : Nat
  packet_id : Nat
  deriving DecidableEq, Repr

/-- Modelled from the spec: `aws_mqtt_packet_publish_init` records its
arguments, in particular the dup flag, into the packet. -/
def aws_mqtt_packet_publish_init (retain : Bool) (qos : Nat) (dup : Bool)
    (topic : Nat) (packet_id : Nat) : aws_mqtt_packet_publish :=
  { retain := retain, qos := qos, dup := dup, topic := topic, packet_id := packet_id }

/-- The persistent task argument of a PUBLISH request (`struct
publish_task_arg`): the requested qos, retain flag and topic, and the packet
built on the first attempt (`none` until then — the struct is zeroed). -/
structure publish_task_arg where
  qos : Nat
  retain : Bool
  topic : Nat
  publish : Option aws_mqtt_packet_publish
  deriving DecidableEq, Repr

/-- What a PUBLISH send attempt leaves behind: the reported request state,
the updated task argument, the packet put on the wire (`none` when the write
failed), and whether an operation timeout task was armed. -/
structure publish_send_result where
  request_state : aws_mqtt_client_request_state
  task : publish_task_arg
  wire_packet : Option aws_mqtt_packet_publish
  timeout_task_armed : Bool
  deriving DecidableEq, Repr

/-- `s_publish_send` from client.c.  For QoS 0 the wire packet id is 0.  The
packet is built only when `is_first_attempt` is true, and the dup argument
passed to `aws_mqtt_packet_publish_init` is literally `!is_first_attempt`,
evaluated inside that branch; a resend re-encodes the stored packet without
touching its header.  On a transport write failure a QoS 0 publish reports
ERROR while QoS above 0 reports ONGOING (the message will be resent after
reconnect).  An operation timeout task is armed only after a successful
write, when the qos is above 0 and `operation_timeout_ns` is not
UINT64_MAX. -/
def s_publish_send (is_first_attempt : Bool) (packet_id : Nat)
    (operation_timeout_ns : Nat) (write_ok : Bool) (task : publish_task_arg) :
    publish_send_result :=
  let is_qos_0 : Bool := task.qos = 0
  let pid := if is_qos_0 then 0 else packet_id
  let task1 :=
    if is_first_attempt then
      { task with
        publish := some (aws_mqtt_packet_publish_init task.retain task.qos
          (!is_first_attempt) task.topic pid) }
    else task
  if ¬ write_ok then
    { request_state :=
        if is_qos_0 then .AWS_MQTT_CLIENT_REQUEST_ERROR
        else .AWS_MQTT_CLIENT_REQUEST_ONGOING
      task := task1
      wire_packet := none
      timeout_task_armed := false }
  else
    { request_state :=
        if is_qos_0 then .AWS_MQTT_CLIENT_REQUEST_COMPLETE
        else .AWS_MQTT_CLIENT_REQUEST_ONGOING
      task := task1
      wire_packet := task1.publish
      timeout_task_armed :=
        if ¬ is_qos_0 ∧ operation_timeout_ns ≠ UINT64_MAX then true else false }

/-- A freshly created QoS 1 publish task for topic 42, before any attempt. -/
def publish_qos1_task : publish_task_arg :=
  { qos := 1, retain := false, topic := 42, publish := none }

/-- An in-flight request (`struct aws_mqtt_request`): its packet id, whether a
completion callback was registered, and a submission stamp recording the
order in which the user submitted it (lower is earlier). -/
structure aws_mqtt_request where
  packet_id : Nat
  has_on_complete : Bool
  submitted : Nat
  deriving DecidableEq, Repr

/-- The request-tracking state that `s_mqtt_client_shutdown` manipulates:
the clean-session flag copied at connect, the ongoing list (thread data),
the pending list, the outstanding-request table (as the list of tracked
packet ids) and the request pool (as the list of released requests). -/
structure connection_requests_state where
  clean_session : Bool
  ongoing_requests_list : List aws_mqtt_request
  pending_requests_list : List aws_mqtt_request
  outstanding_requests_table : List Nat
  requests_pool : List aws_mqtt_request
  deriving DecidableEq, Repr

/-- `aws_hash_table_remove` on the outstanding-request table keyed by packet
id. -/
def remove_from_table (table : List Nat) (packet_id : Nat) : List Nat :=
  table.filter (fun x => x != packet_id)

/-- The result of the shutdown handler on the request lists: the new state
and the completion callback invocations it performed, in order, as pairs of
packet id and error code. -/
structure shutdown_result where
  state : connection_requests_state
  callback_events : List (Nat × aws_error)
  deriving DecidableEq, Repr

/-- The request-list handling of `s_mqtt_client_shutdown` from client.c.
With a clean session both the ongoing and the pending requests are moved
(ongoing first) onto a local cancelling list; each request with a completion
callback has it invoked once with AWS_ERROR_MQTT_CANCELLED_FOR_CLEAN_SESSION,
and then every cancelled request is removed from the outstanding table and
released back to the pool.  Without a clean session the ongoing requests are
appended to the back of the pending list and no callback fires. -/
def s_mqtt_client_shutdown_requests (s : connection_requests_state) :
    shutdown_result :=
  if s.clean_session then
    let cancelling_requests := s.ongoing_requests_list ++ s.pending_requests_list
    { state :=
        { s with
          ongoing_requests_list := []
          pending_requests_list := []
          outstanding_requests_table :=
            cancelling_requests.foldl
              (fun table r => remove_from_table table r.packet_id)
              s.outstanding_requests_table
          requests_pool := s.requests_pool ++ cancelling_requests }
      callback_events :=
        (cancelling_requests.filter (fun r => r.has_on_complete)).map
          (fun r => (r.packet_id, aws_error.AWS_ERROR_MQTT_CANCELLED_FOR_CLEAN_SESSION)) }
  else
    { state :=
        { s with
          ongoing_requests_list := []
          pending_requests_list :=
            s.pending_requests_list ++ s.ongoing_requests_list }
      callback_events := [] }

/-- Modelled from the spec: the re-send loop that runs after a reconnect
lives in `client_channel_handler.c`, which is not among the sources; per the
specification the engine owns a pending list and re-sends the surviving
requests from it, processing the list front to back. -/
def resend_order_after_reconnect (s : connection_requests_state) :
    List aws_mqtt_request :=
  s.pending_requests_list

/-- `aws_mqtt_client_connection_disconnect` from client.c: unless the state
is CONNECTED or RECONNECTING the call fails with
AWS_ERROR_MQTT_NOT_CONNECTED and the state is untouched; otherwise the state
becomes DISCONNECTING and the call succeeds. -/
def aws_mqtt_client_connection_disconnect
    (state : aws_mqtt_client_connection_state) :
    aws_error × aws_mqtt_client_connection_state :=
  if state ≠ .CONNECTED ∧ state ≠ .RECONNECTING then
    (.AWS_ERROR_MQTT_NOT_CONNECTED, state)
  else
    (.AWS_ERROR_SUCCESS, .DISCONNECTING)

/-- Success and failure of the fallible steps inside `s_unsubscribe_send`:
the transactional remove, packet initialization, topic append, message
acquisition, encoding, the transport write, and the timeout task
allocation. -/
structure unsubscribe_send_env where
  transaction_remove_ok : Bool
  packet_init_ok : Bool
  add_topic_ok : Bool
  message_ok : Bool
  encode_ok : Bool
  write_ok : Bool
  timeout_alloc_ok : Bool
  deriving DecidableEq, Repr

/-- What an UNSUBSCRIBE send attempt leaves behind: the reported request
state, the visible topic tree, the task's `tree_updated` and `is_local`
flags, and whether an operation timeout task was armed. -/
structure unsubscribe_send_result where
  request_state : aws_mqtt_client_request_state
  subscriptions : List Nat
  tree_updated : Bool
  is_local : Bool
  timeout_task_armed : Bool
  deriving DecidableEq, Repr

/-- `s_unsubscribe_send` from client.c.  On the first attempt the filter's
removal is staged transactionally and the removed subscription (if any)
reports whether it was local-only (`found_is_local`; `none` when the filter
was not in the tree, in which case the code treats it as not local).  For a
non-local filter the UNSUBSCRIBE packet is built, encoded and written — any
failure there takes the `handle_error` path, which rolls the transaction
back and reports ERROR — and then an operation timeout task is armed
unconditionally (a failure to allocate it reports ERROR without committing).
Finally the staged removal is committed and the function reports COMPLETE
for a local-only filter and ONGOING otherwise. -/
def s_unsubscribe_send (env : unsubscribe_send_env) (filter : Nat)
    (found_is_local : Option Bool) (subscriptions : List Nat)
    (tree_updated : Bool) (is_local_arg : Bool) : unsubscribe_send_result :=
  if ¬ tree_updated ∧ ¬ env.transaction_remove_ok then
    ⟨.AWS_MQTT_CLIENT_REQUEST_ERROR,
      aws_mqtt_topic_tree_transaction_roll_back subscriptions [],
      tree_updated, is_local_arg, false⟩
  else
    let is_local :=
      if ¬ tree_updated then
        match found_is_local with
        | some b => b
        | none => false
      else is_local_arg
    if ¬ is_local ∧
        (¬ env.packet_init_ok ∨ ¬ env.add_topic_ok ∨ ¬ env.message_ok ∨
          ¬ env.encode_ok ∨ ¬ env.write_ok) then
      ⟨.AWS_MQTT_CLIENT_REQUEST_ERROR,
        aws_mqtt_topic_tree_transaction_roll_back subscriptions [filter],
        tree_updated, is_local, false⟩
    else if ¬ is_local ∧ ¬ env.timeout_alloc_ok then
      ⟨.AWS_MQTT_CLIENT_REQUEST_ERROR, subscriptions, tree_updated, is_local, false⟩
    else
      ⟨if is_local then .AWS_MQTT_CLIENT_REQUEST_COMPLETE
        else .AWS_MQTT_CLIENT_REQUEST_ONGOING,
        if ¬ tree_updated then subscriptions.erase filter else subscriptions,
        true, is_local, !is_local⟩

/-- An unsubscribe environment in which every step succeeds. -/
def env_unsub_ok : unsubscribe_send_env :=
  { transaction_remove_ok := true
    packet_init_ok := true
    add_topic_ok := true
    message_ok := true
    encode_ok := true
    write_ok := true
    timeout_alloc_ok := true }

/-- One more than UINT64_MAX: the modulus of 64-bit unsigned arithmetic. -/
def UINT64_MOD : Nat := 18446744073709551616

/-- The backoff update performed by `s_attempt_reconnect` in client.c: to
avoid overflow the code first compares `current_sec` against `max_sec / 2`
(integer division) and sets it directly to `max_sec` when it is larger;
otherwise it doubles it (a 64-bit multiplication, modelled with an explicit
modulus). -/
def s_attempt_reconnect_backoff (current_sec max_sec : Nat) : Nat :=
  if current_sec > max_sec / 2 then max_sec else current_sec * 2 % UINT64_MOD

/-- Success and failure of the fallible steps inside `s_resubscribe_send`. -/
structure resubscribe_send_env where
  packet_init_ok : Bool
  add_topic_ok : Bool
  message_ok : Bool
  encode_ok : Bool
  write_ok : Bool
  deriving DecidableEq, Repr

/-- Modelled from the spec: `aws_mqtt_topic_tree_get_sub_count` lives in
`topic_tree.c`; it returns the number of active subscriptions held by the
tree, which in this embedding is the length of the filter list. -/
def aws_mqtt_topic_tree_get_sub_count (subscriptions : List Nat) : Nat :=
  subscriptions.length

/-- What a resubscribe send attempt leaves behind: the reported request
state, whether a SUBSCRIBE packet was handed to the transport, and the
`topics` array left in the task argument (consumed later by the completion
callback). -/
structure resubscribe_send_result where
  request_state : aws_mqtt_client_request_state
  packet_sent : Bool
  topics : List Nat
  deriving DecidableEq, Repr

/-- `s_resubscribe_send` from client.c.  When the tree holds zero
subscriptions the function returns COMPLETE immediately, leaving the topics
array empty and sending nothing.  Otherwise the tree is iterated into the
topics array, the SUBSCRIBE packet is built and encoded (failures report
ERROR), and a transport write failure only releases the message — the
function still reports ONGOING. -/
def s_resubscribe_send (env : resubscribe_send_env) (subscriptions : List Nat) :
    resubscribe_send_result :=
  if aws_mqtt_topic_tree_get_sub_count subscriptions = 0 then
    ⟨.AWS_MQTT_CLIENT_REQUEST_COMPLETE, false, []⟩
  else
    let topics := subscriptions
    if ¬ env.packet_init_ok then ⟨.AWS_MQTT_CLIENT_REQUEST_ERROR, false, topics⟩
    else if ¬ env.add_topic_ok then ⟨.AWS_MQTT_CLIENT_REQUEST_ERROR, false, topics⟩
    else if ¬ env.message_ok then ⟨.AWS_MQTT_CLIENT_REQUEST_ERROR, false, topics⟩
    else if ¬ env.encode_ok then ⟨.AWS_MQTT_CLIENT_REQUEST_ERROR, false, topics⟩
    else ⟨.AWS_MQTT_CLIENT_REQUEST_ONGOING, env.write_ok, topics⟩

/-- The user-callback decision of `s_resubscribe_complete` from client.c:
when the topics array is empty the function jumps straight to its cleanup
label and the user's on_suback callback is never invoked; otherwise it is
invoked when one was registered. -/
def s_resubscribe_complete_invokes_on_suback (topics : List Nat)
    (has_on_suback : Bool) : Bool :=
  if topics.length = 0 then false else has_on_suback

/-- Modelled from the spec: `mqtt_request_complete` lives in
`client_channel_handler.c`, which is not among the sources.  Per the
specification a send function returning COMPLETE means no acknowledgement is
expected and the request is completed immediately, invoking its completion
callback with AWS_ERROR_SUCCESS; ONGOING leaves the request awaiting its
acknowledgement (no completion yet). -/
def mqtt_request_complete_error_code_for
    (st : aws_mqtt_client_request_state) : Option aws_error :=
  match st with
  | .AWS_MQTT_CLIENT_REQUEST_COMPLETE => some .AWS_ERROR_SUCCESS
  | _ => none

/-- A resubscribe environment in which every step succeeds. -/
def env_resub_ok : resubscribe_send_env :=
  { packet_init_ok := true
    add_topic_ok := true
    message_ok := true
    encode_ok := true
    write_ok := true }

/-- The connect-time options of interest to the defaulting logic of
`aws_mqtt_client_connection_connect` (a value 0 requests the default). -/
structure aws_mqtt_connection_options where
  keep_alive_time_secs : Nat
  ping_timeout_ms : Nat
  protocol_operation_timeout_ms : Nat
  deriving DecidableEq, Repr

/-- The timeouts the connection actually runs with after
`aws_mqtt_client_connection_connect` applied its defaults, plus the outcome
of the fatal keep-alive assertion. -/
structure negotiated_connect_settings where
  keep_alive_time_secs : Nat
  operation_timeout_ns : Nat
  ping_timeout_ns : Nat
  keep_alive_assert_ok : Bool
  deriving DecidableEq, Repr

/-- `s_default_ping_timeout_ns` from client.c: 3 seconds. -/
def s_default_ping_timeout_ns : Nat := 3000000000

/-- `s_default_keep_alive_sec` from client.c: 20 minutes. -/
def s_default_keep_alive_sec : Nat := 1200

/-- Nanoseconds per second (`AWS_TIMESTAMP_NANOS`). -/
def AWS_TIMESTAMP_NANOS : Nat := 1000000000

/-- `aws_timestamp_convert` from milliseconds to nanoseconds. -/
def aws_timestamp_convert_ms_to_ns (ms : Nat) : Nat := ms * 1000000

/-- The option-defaulting prefix of `aws_mqtt_client_connection_connect` from
client.c: a zero keep-alive becomes `s_default_keep_alive_sec`; a zero
`protocol_operation_timeout_ms` disables operation timeouts by storing
UINT64_MAX; a zero `ping_timeout_ms` becomes `s_default_ping_timeout_ns`;
and the configuration passes the fatal assertion exactly when the effective
keep-alive in nanoseconds is strictly greater than the effective ping
timeout. -/
def aws_mqtt_client_connection_connect_settings
    (o : aws_mqtt_connection_options) : negotiated_connect_settings :=
  let keep_alive :=
    if o.keep_alive_time_secs = 0 then s_default_keep_alive_sec
    else o.keep_alive_time_secs
  let op_ns :=
    if o.protocol_operation_timeout_ms = 0 then UINT64_MAX
    else aws_timestamp_convert_ms_to_ns o.protocol_operation_timeout_ms
  let ping_ns :=
    if o.ping_timeout_ms = 0 then s_default_ping_timeout_ns
    else aws_timestamp_convert_ms_to_ns o.ping_timeout_ms
  { keep_alive_time_secs := keep_alive
    operation_timeout_ns := op_ns
    ping_timeout_ns := ping_ns
    keep_alive_assert_ok := decide (keep_alive * AWS_TIMESTAMP_NANOS > ping_ns) }

/-- C1 counterexample: the claim says every configuration setter, including
`aws_mqtt_client_connection_set_on_any_publish_handler`, succeeds if and
only if the state is DISCONNECTED or CONNECTED.  But that setter fails with
AWS_ERROR_INVALID_STATE in the CONNECTED state, and succeeds in the
CONNECTING state. -/
theorem C1_counterexample :
    aws_mqtt_client_connection_set_on_any_publish_handler .CONNECTED default_config
        = (.AWS_ERROR_INVALID_STATE, default_config) ∧
    (aws_mqtt_client_connection_set_on_any_publish_handler .CONNECTING
        default_config).1 = .AWS_ERROR_SUCCESS := by
  decide

/-- C1 (amended): the setters for will, login, reconnect timeout and
interruption handlers succeed exactly when the state is DISCONNECTED or
CONNECTED and otherwise return AWS_ERROR_INVALID_STATE leaving the
configuration unchanged (set_will additionally requires a valid topic and
reports AWS_ERROR_MQTT_INVALID_TOPIC otherwise, also leaving the
configuration unchanged); set_on_any_publish_handler instead fails with
AWS_ERROR_INVALID_STATE exactly when the state is CONNECTED, leaving the
configuration unchanged, and succeeds in every other state. -/
theorem C1_configuration_setters_gate
    (state : aws_mqtt_client_connection_state) (cfg : connection_config)
    (topic qos : Nat) (retain : Bool) (payload : Nat)
    (min_timeout max_timeout : Nat) (username : Nat) (password : Option Nat) :
    (((aws_mqtt_client_connection_set_will state cfg topic true qos retain
          payload).1 = .AWS_ERROR_SUCCESS) ↔
        (state = .DISCONNECTED ∨ state = .CONNECTED)) ∧
    (((aws_mqtt_client_connection_set_login state cfg username password).1
          = .AWS_ERROR_SUCCESS) ↔
        (state = .DISCONNECTED ∨ state = .CONNECTED)) ∧
    (((aws_mqtt_client_connection_set_reconnect_timeout state cfg min_timeout
          max_timeout).1 = .AWS_ERROR_SUCCESS) ↔
        (state = .DISCONNECTED ∨ state = .CONNECTED)) ∧
    (((aws_mqtt_client_connection_set_connection_interruption_handlers state
          cfg).1 = .AWS_ERROR_SUCCESS) ↔
        (state = .DISCONNECTED ∨ state = .CONNECTED)) ∧
    (s_check_connection_state_for_configuration state = false →
      aws_mqtt_client_connection_set_will state cfg topic true qos retain payload
          = (.AWS_ERROR_INVALID_STATE, cfg) ∧
      aws_mqtt_client_connection_set_login state cfg username password
          = (.AWS_ERROR_INVALID_STATE, cfg) ∧
      aws_mqtt_client_connection_set_reconnect_timeout state cfg min_timeout
          max_timeout = (.AWS_ERROR_INVALID_STATE, cfg) ∧
      aws_mqtt_client_connection_set_connection_interruption_handlers state cfg
          = (.AWS_ERROR_INVALID_STATE, cfg)) ∧
    (s_check_connection_state_for_configuration state = true →
      aws_mqtt_client_connection_set_will state cfg topic false qos retain payload
          = (.AWS_ERROR_MQTT_INVALID_TOPIC, cfg)) ∧
    (((aws_mqtt_client_connection_set_on_any_publish_handler state cfg).1
          = .AWS_ERROR_SUCCESS) ↔ state ≠ .CONNECTED) ∧
    (state = .CONNECTED →
      aws_mqtt_client_connection_set_on_any_publish_handler state cfg
          = (.AWS_ERROR_INVALID_STATE, cfg)) := by
  cases state <;>
    simp [aws_mqtt_client_connection_set_will,
      aws_mqtt_client_connection_set_login,
      aws_mqtt_client_connection_set_reconnect_timeout,
      aws_mqtt_client_connection_set_connection_interruption_handlers,
      aws_mqtt_client_connection_set_on_any_publish_handler,
      s_check_connection_state_for_configuration]

/-- C1 witness: the amended theorem applied in the RECONNECTING state, where
the gate refuses, shows set_will returning AWS_ERROR_INVALID_STATE with the
configuration untouched. -/
theorem C1_witness :
    aws_mqtt_client_connection_set_will .RECONNECTING default_config 1 true 0
        false 2 = (.AWS_ERROR_INVALID_STATE, default_config) :=
  ((C1_configuration_setters_gate .RECONNECTING default_config 1 0 false 2 0 0
      0 none).2.2.2.2.1 (by decide)).1

/-- C3 (code bug): a QoS 1 PUBLISH re-sent after a transport loss (send
invoked with is_first_attempt = false) goes out with the same packet id as
the first attempt but with the DUP flag still false: the packet is the one
built on the first attempt, whose dup argument `!is_first_attempt` was
evaluated inside the `is_first_attempt` branch and is therefore constantly
false, and the resend path never touches the header.  The claim (and MQTT
3.1.1) require DUP = 1 on the retransmission. -/
theorem C3_dup_flag_not_set_on_resend :
    (s_publish_send true 5 UINT64_MAX true publish_qos1_task).wire_packet
        = some (aws_mqtt_packet_publish_init false 1 false 42 5) ∧
    (s_publish_send false 5 UINT64_MAX true
        (s_publish_send true 5 UINT64_MAX true publish_qos1_task).task).wire_packet
        = some (aws_mqtt_packet_publish_init false 1 false 42 5) ∧
    (s_publish_send false 5 UINT64_MAX true
        (s_publish_send true 5 UINT64_MAX true
          publish_qos1_task).task).request_state
        = .AWS_MQTT_CLIENT_REQUEST_ONGOING := by
  decide

/-- C5 counterexample: a user-invoked disconnect while the state is
CONNECTING does not succeed and does not move the state to DISCONNECTING;
it fails with AWS_ERROR_MQTT_NOT_CONNECTED and leaves the state CONNECTING,
although the claim says a disconnect in this non-terminal state is
honored. -/
theorem C5_counterexample :
    aws_mqtt_client_connection_disconnect .CONNECTING
        = (.AWS_ERROR_MQTT_NOT_CONNECTED, .CONNECTING) := by
  decide

/-- C5 (amended): a user-invoked disconnect succeeds exactly when the state
is CONNECTED or RECONNECTING, in which case the state moves to
DISCONNECTING; in every other state, including CONNECTING, it fails with
AWS_ERROR_MQTT_NOT_CONNECTED and leaves the state unchanged. -/
theorem C5_disconnect_gate (state : aws_mqtt_client_connection_state) :
    ((aws_mqtt_client_connection_disconnect state).1 = .AWS_ERROR_SUCCESS ↔
      (state = .CONNECTED ∨ state = .RECONNECTING)) ∧
    ((aws_mqtt_client_connection_disconnect state).1 = .AWS_ERROR_SUCCESS →
      (aws_mqtt_client_connection_disconnect state).2 = .DISCONNECTING) ∧
    ((aws_mqtt_client_connection_disconnect state).1 ≠ .AWS_ERROR_SUCCESS →
      aws_mqtt_client_connection_disconnect state
        = (.AWS_ERROR_MQTT_NOT_CONNECTED, state)) := by
  cases state <;> decide

/-- C5 witness: the amended theorem applied in the RECONNECTING state shows
the disconnect succeeding into DISCONNECTING. -/
theorem C5_witness :
    (aws_mqtt_client_connection_disconnect .RECONNECTING).2 = .DISCONNECTING :=
  (C5_disconnect_gate .RECONNECTING).2.1 (by decide)

/-- C9 counterexample: invoking resubscribe while the topic tree holds zero
subscriptions makes the send function return COMPLETE without handing any
SUBSCRIBE packet to the transport, and the request is completed with
AWS_ERROR_SUCCESS — but the user's on_suback callback does not fire, because
`s_resubscribe_complete` returns through its cleanup label when the topics
array is empty.  The claim says the callback fires with SUCCESS. -/
theorem C9_counterexample :
    (s_resubscribe_send env_resub_ok []).request_state
        = .AWS_MQTT_CLIENT_REQUEST_COMPLETE ∧
    (s_resubscribe_send env_resub_ok []).packet_sent = false ∧
    mqtt_request_complete_error_code_for
        (s_resubscribe_send env_resub_ok []).request_state
        = some .AWS_ERROR_SUCCESS ∧
    s_resubscribe_complete_invokes_on_suback
        (s_resubscribe_send env_resub_ok []).topics true = false := by
  decide

/-- C9 (amended): with zero subscriptions in the topic tree the resubscribe
send function returns COMPLETE without sending any SUBSCRIBE packet, so the
request completes with AWS_ERROR_SUCCESS, but the user's on_suback callback
is not invoked, whatever environment the attempt runs in and whether or not
a callback was registered. -/
theorem C9_resubscribe_zero_subscriptions (env : resubscribe_send_env)
    (has_on_suback : Bool) :
    (s_resubscribe_send env []).request_state
        = .AWS_MQTT_CLIENT_REQUEST_COMPLETE ∧
    (s_resubscribe_send env []).packet_sent = false ∧
    mqtt_request_complete_error_code_for
        (s_resubscribe_send env []).request_state
        = some .AWS_ERROR_SUCCESS ∧
    s_resubscribe_complete_invokes_on_suback (s_resubscribe_send env []).topics
        has_on_suback = false := by
  simp [s_resubscribe_send, aws_mqtt_topic_tree_get_sub_count,
    s_resubscribe_complete_invokes_on_suback,
    mqtt_request_complete_error_code_for]

/-- C10: the connect entry point replaces a zero keep-alive with the default
1200 seconds, a zero ping timeout with the default 3 seconds (in
nanoseconds), and a zero protocol operation timeout with UINT64_MAX
(operation timeouts disabled); nonzero values are converted as given; and
the fatal configuration assertion passes exactly when the effective
keep-alive in nanoseconds is strictly greater than the effective ping
timeout in nanoseconds. -/
theorem C10_connect_defaults (o : aws_mqtt_connection_options) :
    (o.keep_alive_time_secs = 0 →
      (aws_mqtt_client_connection_connect_settings o).keep_alive_time_secs
        = 1200) ∧
    (o.keep_alive_time_secs ≠ 0 →
      (aws_mqtt_client_connection_connect_settings o).keep_alive_time_secs
        = o.keep_alive_time_secs) ∧
    (o.ping_timeout_ms = 0 →
      (aws_mqtt_client_connection_connect_settings o).ping_timeout_ns
        = 3000000000) ∧
    (o.ping_timeout_ms ≠ 0 →
      (aws_mqtt_client_connection_connect_settings o).ping_timeout_ns
        = o.ping_timeout_ms * 1000000) ∧
    (o.protocol_operation_timeout_ms = 0 →
      (aws_mqtt_client_connection_connect_settings o).operation_timeout_ns
        = UINT64_MAX) ∧
    (o.protocol_operation_timeout_ms ≠ 0 →
      (aws_mqtt_client_connection_connect_settings o).operation_timeout_ns
        = o.protocol_operation_timeout_ms * 1000000) ∧
    ((aws_mqtt_client_connection_connect_settings o).keep_alive_assert_ok = true
        ↔ (aws_mqtt_client_connection_connect_settings o).keep_alive_time_secs
            * AWS_TIMESTAMP_NANOS
          > (aws_mqtt_client_connection_connect_settings o).ping_timeout_ns) := by
  by_cases hk : o.keep_alive_time_secs = 0 <;>
    by_cases hp : o.ping_timeout_ms = 0 <;>
    by_cases ho : o.protocol_operation_timeout_ms = 0 <;>
    simp [aws_mqtt_client_connection_connect_settings, hk, hp, ho,
      s_default_keep_alive_sec, s_default_ping_timeout_ns,
      aws_timestamp_convert_ms_to_ns]

/-- C10 witness: the theorem applied to the all-zero options shows the
defaults 1200 s keep-alive, 3 s ping timeout and disabled operation
timeouts. -/
theorem C10_witness :
    (aws_mqtt_client_connection_connect_settings
        { keep_alive_time_secs := 0, ping_timeout_ms := 0,
          protocol_operation_timeout_ms := 0 }).keep_alive_time_secs = 1200 ∧
    (aws_mqtt_client_connection_connect_settings
        { keep_alive_time_secs := 0, ping_timeout_ms := 0,
          protocol_operation_timeout_ms := 0 }).ping_timeout_ns = 3000000000 ∧
    (aws_mqtt_client_connection_connect_settings
        { keep_alive_time_secs := 0, ping_timeout_ms := 0,
          protocol_operation_timeout_ms := 0 }).operation_timeout_ns
        = UINT64_MAX :=
  ⟨(C10_connect_defaults _).1 rfl,
    ((C10_connect_defaults _).2.2.1 rfl),
    ((C10_connect_defaults _).2.2.2.2.1 rfl)⟩

/-- Single step of the backoff update: starting at or below `max_sec` it
never decreases and never exceeds `max_sec`. -/
theorem s_attempt_reconnect_backoff_le (current_sec max_sec : Nat)
    (hmax : max_sec < UINT64_MOD) (hcur : current_sec ≤ max_sec) :
    current_sec ≤ s_attempt_reconnect_backoff current_sec max_sec ∧
    s_attempt_reconnect_backoff current_sec max_sec ≤ max_sec := by
  unfold s_attempt_reconnect_backoff UINT64_MOD at *
  split <;> omega

/-- Iterating the backoff update from any value at or below `max_sec` yields
a chain that stays at or below `max_sec` and is non-decreasing. -/
theorem s_attempt_reconnect_backoff_iterate (max_sec : Nat)
    (hmax : max_sec < UINT64_MOD) :
    ∀ (n current_sec : Nat), current_sec ≤ max_sec →
      (fun c => s_attempt_reconnect_backoff c max_sec)^[n] current_sec
          ≤ max_sec ∧
      (fun c => s_attempt_reconnect_backoff c max_sec)^[n] current_sec ≤
        (fun c => s_attempt_reconnect_backoff c max_sec)^[n + 1] current_sec := by
  intro n
  induction n with
  | zero =>
    intro c hc
    refine ⟨by simpa using hc, ?_⟩
    have h := (s_attempt_reconnect_backoff_le c max_sec hmax hc).1
    simpa using h
  | succ n ih =>
    intro c hc
    have hstep := (s_attempt_reconnect_backoff_le c max_sec hmax hc).2
    have h := ih (s_attempt_reconnect_backoff c max_sec) hstep
    simpa [Function.iterate_succ_apply] using h

/-- C8: the reconnect backoff update of `s_attempt_reconnect` doubles
`current_sec` whenever it is at most `max_sec / 2` (and under the 64-bit
modulus that doubling never wraps), sets it directly to `max_sec` whenever
it is larger than `max_sec / 2`, never produces a value above `max_sec`,
and over any sequence of reconnect attempts starting at or below `max_sec`
the backoff is monotonically non-decreasing and stays at or below
`max_sec`. -/
theorem C8_reconnect_backoff (current_sec max_sec : Nat)
    (hmax : max_sec < UINT64_MOD) :
    (s_attempt_reconnect_backoff current_sec max_sec ≤ max_sec) ∧
    (current_sec ≤ max_sec →
      current_sec ≤ s_attempt_reconnect_backoff current_sec max_sec) ∧
    (current_sec ≤ max_sec / 2 →
      s_attempt_reconnect_backoff current_sec max_sec = 2 * current_sec) ∧
    (max_sec / 2 < current_sec →
      s_attempt_reconnect_backoff current_sec max_sec = max_sec) ∧
    (current_sec ≤ max_sec → ∀ n : Nat,
      (fun c => s_attempt_reconnect_backoff c max_sec)^[n] current_sec
          ≤ max_sec ∧
      (fun c => s_attempt_reconnect_backoff c max_sec)^[n] current_sec ≤
        (fun c => s_attempt_reconnect_backoff c max_sec)^[n + 1] current_sec) := by
  refine ⟨?_, ?_, ?_, ?_, ?_⟩
  · unfold s_attempt_reconnect_backoff UINT64_MOD at *
    split <;> omega
  · intro hcur
    exact (s_attempt_reconnect_backoff_le current_sec max_sec hmax hcur).1
  · intro hhalf
    unfold s_attempt_reconnect_backoff UINT64_MOD at *
    split <;> omega
  · intro hhalf
    unfold s_attempt_reconnect_backoff
    split <;> omega
  · intro hcur n
    exact s_attempt_reconnect_backoff_iterate max_sec hmax n current_sec hcur

/-- C8 witness: starting from the default minimum of 1 second with the
default maximum of 128 seconds, one failed attempt doubles the backoff to
2 seconds. -/
theorem C8_witness : s_attempt_reconnect_backoff 1 128 = 2 * 1 :=
  (C8_reconnect_backoff 1 128 (by decide)).2.2.1 (by decide)

/-- On a first attempt (tree not yet updated) the staging loop either fails
or stages exactly the requested topic filters. -/
theorem s_subscribe_stage_first_attempt (env : subscribe_send_env)
    (initing_packet : Bool) :
    ∀ (topics : List Nat) (i : Nat),
      s_subscribe_stage env initing_packet false topics i = none ∨
      s_subscribe_stage env initing_packet false topics i = some topics := by
  intro topics
  induction topics with
  | nil =>
    intro i
    right
    rfl
  | cons f rest ih =>
    intro i
    unfold s_subscribe_stage
    split
    · left
      rfl
    · split
      · left
        rfl
      · rcases ih (i + 1) with h | h
        · rw [h]
          left
          rfl
        · rw [h]
          right
          simp

/-- C2 counterexample: a SUBSCRIBE send attempt whose transport write fails
(all earlier steps succeeding) leaves the topic tree changed: the staged
insert of filter 7 is committed anyway, the attempt reports ONGOING, and no
packet reached the transport.  The claim says the tree after the attempt
equals the tree before it. -/
theorem C2_counterexample :
    (s_subscribe_send env_write_fail true [7] ([] : List Nat)
        false).subscriptions = [7] ∧
    (s_subscribe_send env_write_fail true [7] ([] : List Nat)
        false).subscriptions ≠ [] ∧
    (s_subscribe_send env_write_fail true [7] ([] : List Nat)
        false).packet_written = false ∧
    (s_subscribe_send env_write_fail true [7] ([] : List Nat)
        false).request_state = .AWS_MQTT_CLIENT_REQUEST_ONGOING := by
  decide

/-- C2 (amended): on a first SUBSCRIBE send attempt, every failure that
happens before the message is handed to the transport (packet
initialization, topic append, transactional insert, message acquisition,
encoding) reports ERROR, rolls the staged transaction back and leaves the
topic tree unchanged; but whenever the attempt reports ONGOING — which
includes the case where the transport write itself fails — the transaction
has been committed and the tree now contains the staged inserts. -/
theorem C2_subscribe_transaction (env : subscribe_send_env)
    (topics subscriptions : List Nat) :
    ((s_subscribe_send env true topics subscriptions false).request_state
        = .AWS_MQTT_CLIENT_REQUEST_ERROR →
      (s_subscribe_send env true topics subscriptions false).subscriptions
          = subscriptions ∧
      (s_subscribe_send env true topics subscriptions false).tree_updated
          = false) ∧
    ((s_subscribe_send env true topics subscriptions false).request_state
        = .AWS_MQTT_CLIENT_REQUEST_ONGOING →
      (s_subscribe_send env true topics subscriptions false).subscriptions
          = aws_mqtt_topic_tree_transaction_commit subscriptions topics ∧
      (s_subscribe_send env true topics subscriptions false).tree_updated
          = true) := by
  rcases s_subscribe_stage_first_attempt env true topics 0 with h | h <;>
    simp only [s_subscribe_send, h] <;>
    split_ifs <;>
    simp_all [aws_mqtt_topic_tree_transaction_roll_back,
      aws_mqtt_topic_tree_transaction_commit]

/-- C2 witness: the amended theorem applied to a fully successful attempt
shows the commit of the staged insert. -/
theorem C2_witness :
    (s_subscribe_send env_all_ok true [3] [] false).subscriptions
        = aws_mqtt_topic_tree_transaction_commit [] [3] ∧
    (s_subscribe_send env_all_ok true [3] [] false).tree_updated = true :=
  (C2_subscribe_transaction env_all_ok [3] []).2 (by decide)

/-- C6 counterexample: a fully successful SUBSCRIBE send attempt hands its
packet to the transport and reports ONGOING, yet arms no operation timeout
task — `s_subscribe_send` contains no call to the timeout scheduler, while
the claim says a timeout is armed at every SUBSCRIBE send. -/
theorem C6_counterexample :
    (s_subscribe_send env_all_ok true [5] [] false).request_state
        = .AWS_MQTT_CLIENT_REQUEST_ONGOING ∧
    (s_subscribe_send env_all_ok true [5] [] false).packet_written = true ∧
    (s_subscribe_send env_all_ok true [5] [] false).timeout_task_armed
        = false := by
  decide

/-- C6 (amended): no operation timeout task is ever armed by a SUBSCRIBE
send; an UNSUBSCRIBE send arms one exactly when it reports ONGOING (that is,
the removed filter was not local-only and every step through the timeout
allocation succeeded — unconditionally on `operation_timeout_ns`); a PUBLISH
send arms one exactly when the transport write succeeded, the QoS is above
zero, and `operation_timeout_ns` is not UINT64_MAX. -/
theorem C6_operation_timeout_arming :
    (∀ (env : subscribe_send_env) (initing_packet : Bool)
        (topics subscriptions : List Nat) (tree_updated : Bool),
      (s_subscribe_send env initing_packet topics subscriptions
          tree_updated).timeout_task_armed = false) ∧
    (∀ (env : unsubscribe_send_env) (filter : Nat)
        (found_is_local : Option Bool) (subscriptions : List Nat)
        (tree_updated is_local_arg : Bool),
      ((s_unsubscribe_send env filter found_is_local subscriptions
            tree_updated is_local_arg).timeout_task_armed = true ↔
        (s_unsubscribe_send env filter found_is_local subscriptions
            tree_updated is_local_arg).request_state
          = .AWS_MQTT_CLIENT_REQUEST_ONGOING)) ∧
    (∀ (is_first_attempt : Bool) (packet_id operation_timeout_ns : Nat)
        (write_ok : Bool) (task : publish_task_arg),
      ((s_publish_send is_first_attempt packet_id operation_timeout_ns
            write_ok task).timeout_task_armed = true ↔
        (write_ok = true ∧ task.qos ≠ 0 ∧
          operation_timeout_ns ≠ UINT64_MAX))) := by
  refine ⟨?_, ?_, ?_⟩
  · intro env initing_packet topics subscriptions tree_updated
    unfold s_subscribe_send
    repeat first | rfl | split
  · intro env filter found_is_local subscriptions tree_updated is_local_arg
    rcases found_is_local with _ | b <;>
      cases tree_updated <;>
      cases is_local_arg <;>
      (try cases b) <;>
      (simp only [s_unsubscribe_send, Bool.not_eq_true]; split_ifs <;> tauto)
  · intro is_first_attempt packet_id operation_timeout_ns write_ok task
    unfold s_publish_send
    cases write_ok <;> split_ifs <;> simp_all

/-- C6 witness: the amended theorem applied to a fully successful
UNSUBSCRIBE of a non-local filter shows the operation timeout being
armed. -/
theorem C6_witness :
    (s_unsubscribe_send env_unsub_ok 4 none [4] false
        false).timeout_task_armed = true :=
  (C6_operation_timeout_arming.2.1 env_unsub_ok 4 none [4] false false).mpr
    (by decide)

/-- A request submitted first (stamp 0) that was already written and awaits
its acknowledgement on the ongoing list. -/
def r_first : aws_mqtt_request :=
  { packet_id := 1, has_on_complete := true, submitted := 0 }

/-- A request submitted later (stamp 1) that is still on the pending list. -/
def r_second : aws_mqtt_request :=
  { packet_id := 2, has_on_complete := true, submitted := 1 }

/-- A non-clean-session connection about to lose its transport, with the
earlier request ongoing and the later one pending. -/
def s_c7 : connection_requests_state :=
  { clean_session := false
    ongoing_requests_list := [r_first]
    pending_requests_list := [r_second]
    outstanding_requests_table := [1, 2]
    requests_pool := [] }

/-- C7 counterexample: after an unexpected shutdown with clean_session set to
false, the ongoing request (submitted first) is appended to the back of the
pending list behind a request submitted later, so the re-send order after
reconnect is not the original submission order: the resulting list is not
sorted by submission stamp. -/
theorem C7_counterexample :
    resend_order_after_reconnect (s_mqtt_client_shutdown_requests s_c7).state
        = [r_second, r_first] ∧
    r_first.submitted < r_second.submitted ∧
    ¬ (resend_order_after_reconnect
          (s_mqtt_client_shutdown_requests s_c7).state).Pairwise
        (fun a b => a.submitted ≤ b.submitted) := by
  decide

/-- C7 (amended): after an unexpected transport shutdown with clean_session
set to false, every request on the ongoing list is moved to the back of the
pending list (the ongoing list empties, no completion callback fires, the
outstanding table and the pool are untouched), so the re-send order after
reconnect is the formerly pending requests first and the formerly ongoing
requests after them, each group keeping its internal order; the overall
original submission order is not preserved when an ongoing request was
submitted before a still-pending one. -/
theorem C7_move_ongoing_to_pending (s : connection_requests_state)
    (h : s.clean_session = false) :
    (s_mqtt_client_shutdown_requests s).state.pending_requests_list
        = s.pending_requests_list ++ s.ongoing_requests_list ∧
    (s_mqtt_client_shutdown_requests s).state.ongoing_requests_list = [] ∧
    (s_mqtt_client_shutdown_requests s).callback_events = [] ∧
    (s_mqtt_client_shutdown_requests s).state.outstanding_requests_table
        = s.outstanding_requests_table ∧
    (s_mqtt_client_shutdown_requests s).state.requests_pool
        = s.requests_pool := by
  simp [s_mqtt_client_shutdown_requests, h]

/-- C7 witness: the amended theorem applied to the concrete non-clean
connection shows the formerly pending request re-sent before the formerly
ongoing one. -/
theorem C7_witness :
    (s_mqtt_client_shutdown_requests s_c7).state.pending_requests_list
        = [r_second, r_first] := by
  simpa using (C7_move_ongoing_to_pending s_c7 rfl).1

/-- Removing a packet id from the outstanding table makes it absent. -/
theorem remove_from_table_not_mem (table : List Nat) (packet_id : Nat) :
    packet_id ∉ remove_from_table table packet_id := by
  simp [remove_from_table]

/-- Removal never adds entries to the outstanding table. -/
theorem remove_from_table_subset (table : List Nat) (packet_id x : Nat)
    (h : x ∈ remove_from_table table packet_id) : x ∈ table := by
  simp only [remove_from_table, List.mem_filter] at h
  exact h.1

/-- A packet id absent from the table stays absent while further requests
are removed. -/
theorem foldl_remove_preserves (l : List aws_mqtt_request) :
    ∀ (table : List Nat) (packet_id : Nat), packet_id ∉ table →
      packet_id ∉ l.foldl (fun t r => remove_from_table t r.packet_id) table := by
  induction l with
  | nil =>
    intro table packet_id h
    simpa using h
  | cons r rest ih =>
    intro table packet_id h
    simp only [List.foldl_cons]
    apply ih
    intro hmem
    exact h (remove_from_table_subset table r.packet_id packet_id hmem)

/-- Folding the removal of every cancelled request over the outstanding
table removes each of their packet ids. -/
theorem foldl_remove_of_mem (l : List aws_mqtt_request) :
    ∀ (table : List Nat) (packet_id : Nat),
      packet_id ∈ l.map aws_mqtt_request.packet_id →
      packet_id ∉ l.foldl (fun t r => remove_from_table t r.packet_id) table := by
  induction l with
  | nil =>
    intro table packet_id h
    simp at h
  | cons r rest ih =>
    intro table packet_id h
    simp only [List.map_cons, List.mem_cons] at h
    simp only [List.foldl_cons]
    rcases h with h | h
    · subst h
      exact foldl_remove_preserves rest _ r.packet_id
        (remove_from_table_not_mem table r.packet_id)
    · exact ih _ packet_id h

/-- How many times a given callback event (packet id with error code)
occurs among the completion callback invocations of a shutdown. -/
def count_callback_events (events : List (Nat × aws_error))
    (e : Nat × aws_error) : Nat :=
  (events.filter (fun x => x = e)).length

/-- An element that is absent from a list occurs zero times in it. -/
theorem filter_eq_length_zero {α : Type} [DecidableEq α] :
    ∀ (l : List α) (a : α), a ∉ l → (l.filter (fun x => x = a)).length = 0 := by
  intro l
  induction l with
  | nil =>
    intro a _
    rfl
  | cons x rest ih =>
    intro a h
    simp only [List.mem_cons, not_or] at h
    have hx : ¬ (x = a) := fun hc => h.1 hc.symm
    simpa [List.filter_cons, hx] using ih a h.2

/-- An element of a list without duplicates occurs exactly once in it. -/
theorem filter_eq_length_one {α : Type} [DecidableEq α] :
    ∀ (l : List α) (a : α), l.Nodup → a ∈ l →
      (l.filter (fun x => x = a)).length = 1 := by
  intro l
  induction l with
  | nil =>
    intro a _ hmem
    simp at hmem
  | cons x rest ih =>
    intro a hnodup hmem
    rw [List.nodup_cons] at hnodup
    rcases List.mem_cons.mp hmem with rfl | hmem2
    · have h0 : (rest.filter (fun y => y = a)).length = 0 :=
        filter_eq_length_zero rest a hnodup.1
      simp [List.filter_cons, h0]
    · have hx : ¬ (x = a) := fun hc => hnodup.1 (hc ▸ hmem2)
      simpa [List.filter_cons, hx] using ih a hnodup.2 hmem2

/-- C4: when the transport shuts down on a clean-session connection, both
request lists empty out; every completion callback event carries
AWS_ERROR_MQTT_CANCELLED_FOR_CLEAN_SESSION; each request on the ongoing or
pending list whose completion callback is registered has it invoked exactly
once with that code (and a request without a callback is never reported and
so cannot fire twice), provided the tracked packet ids are distinct, which
is the RequestTable invariant; and each such request is removed from the
outstanding-request table and returned to the pool. -/
theorem C4_clean_session_cancellation
    (s : connection_requests_state)
    (hclean : s.clean_session = true)
    (hnodup : ((s.ongoing_requests_list ++ s.pending_requests_list).map
        aws_mqtt_request.packet_id).Nodup) :
    (s_mqtt_client_shutdown_requests s).state.ongoing_requests_list = [] ∧
    (s_mqtt_client_shutdown_requests s).state.pending_requests_list = [] ∧
    (∀ e ∈ (s_mqtt_client_shutdown_requests s).callback_events,
      e.2 = aws_error.AWS_ERROR_MQTT_CANCELLED_FOR_CLEAN_SESSION) ∧
    ∀ r ∈ s.ongoing_requests_list ++ s.pending_requests_list,
      (count_callback_events (s_mqtt_client_shutdown_requests s).callback_events
          (r.packet_id, aws_error.AWS_ERROR_MQTT_CANCELLED_FOR_CLEAN_SESSION)
        = if r.has_on_complete then 1 else 0) ∧
      r.packet_id ∉
        (s_mqtt_client_shutdown_requests s).state.outstanding_requests_table ∧
      r ∈ (s_mqtt_client_shutdown_requests s).state.requests_pool := by
  have hshut : s_mqtt_client_shutdown_requests s =
      { state :=
          { s with
            ongoing_requests_list := []
            pending_requests_list := []
            outstanding_requests_table :=
              (s.ongoing_requests_list ++ s.pending_requests_list).foldl
                (fun table r => remove_from_table table r.packet_id)
                s.outstanding_requests_table
            requests_pool := s.requests_pool ++
              (s.ongoing_requests_list ++ s.pending_requests_list) }
        callback_events :=
          ((s.ongoing_requests_list ++ s.pending_requests_list).filter
              (fun r => r.has_on_complete)).map
            (fun r => (r.packet_id,
              aws_error.AWS_ERROR_MQTT_CANCELLED_FOR_CLEAN_SESSION)) } := by
    simp [s_mqtt_client_shutdown_requests, hclean]
  rw [hshut]
  have hfilter_nodup :
      (((s.ongoing_requests_list ++ s.pending_requests_list).filter
          (fun r => r.has_on_complete)).map aws_mqtt_request.packet_id).Nodup :=
    ((List.filter_sublist _).map aws_mqtt_request.packet_id).nodup hnodup
  have hfl_nodup :
      ((s.ongoing_requests_list ++ s.pending_requests_list).filter
          (fun r => r.has_on_complete)).Nodup :=
    List.Nodup.of_map aws_mqtt_request.packet_id hfilter_nodup
  have hev_nodup :
      (((s.ongoing_requests_list ++ s.pending_requests_list).filter
          (fun r => r.has_on_complete)).map
        (fun r => (r.packet_id,
          aws_error.AWS_ERROR_MQTT_CANCELLED_FOR_CLEAN_SESSION))).Nodup := by
    apply List.Nodup.map_on _ hfl_nodup
    intro x hx y hy hxy
    have hpid : x.packet_id = y.packet_id := by
      simpa using congrArg Prod.fst hxy
    exact List.inj_on_of_nodup_map hfilter_nodup hx hy hpid
  refine ⟨rfl, rfl, ?_, ?_⟩
  · intro e he
    simp only [List.mem_map] at he
    obtain ⟨r, _, rfl⟩ := he
    rfl
  · intro r hr
    refine ⟨?_, ?_, ?_⟩
    · cases hhas : r.has_on_complete with
      | true =>
        have hmem :
            (r.packet_id,
              aws_error.AWS_ERROR_MQTT_CANCELLED_FOR_CLEAN_SESSION) ∈
            ((s.ongoing_requests_list ++ s.pending_requests_list).filter
                (fun q => q.has_on_complete)).map
              (fun q => (q.packet_id,
                aws_error.AWS_ERROR_MQTT_CANCELLED_FOR_CLEAN_SESSION)) :=
          List.mem_map.mpr
            ⟨r, List.mem_filter.mpr ⟨hr, by simp [hhas]⟩, rfl⟩
        simp only [hhas, if_true]
        exact filter_eq_length_one _ _ hev_nodup hmem
      | false =>
        have hnot :
            (r.packet_id,
              aws_error.AWS_ERROR_MQTT_CANCELLED_FOR_CLEAN_SESSION) ∉
            ((s.ongoing_requests_list ++ s.pending_requests_list).filter
                (fun q => q.has_on_complete)).map
              (fun q => (q.packet_id,
                aws_error.AWS_ERROR_MQTT_CANCELLED_FOR_CLEAN_SESSION)) := by
          intro hmem
          obtain ⟨q, hq, heq⟩ := List.mem_map.mp hmem
          obtain ⟨hqL, hqhas⟩ := List.mem_filter.mp hq
          have hpid : q.packet_id = r.packet_id := by
            simpa using congrArg Prod.fst heq
          have hqr : q = r := List.inj_on_of_nodup_map hnodup hqL hr hpid
          rw [hqr] at hqhas
          simp [hhas] at hqhas
        simp only [hhas, Bool.false_eq_true, if_false]
        exact filter_eq_length_zero _ _ hnot
    · exact foldl_remove_of_mem _ _ _ (List.mem_map_of_mem _ hr)
    · exact List.mem_append.mpr (Or.inr hr)

/-- C4 witness: a clean-session connection with one ongoing and one pending
request, both carrying callbacks and distinct packet ids, has the ongoing
request's callback fire exactly once with
AWS_ERROR_MQTT_CANCELLED_FOR_CLEAN_SESSION. -/
theorem C4_witness :
    count_callback_events
      (s_mqtt_client_shutdown_requests
        { clean_session := true
          ongoing_requests_list := [r_first]
          pending_requests_list := [r_second]
          outstanding_requests_table := [1, 2]
          requests_pool := [] }).callback_events
      (r_first.packet_id,
        aws_error.AWS_ERROR_MQTT_CANCELLED_FOR_CLEAN_SESSION) = 1 := by
  have h := (C4_clean_session_cancellation
    { clean_session := true
      ongoing_requests_list := [r_first]
      pending_requests_list := [r_second]
      outstanding_requests_table := [1, 2]
      requests_pool := [] } rfl (by decide)).2.2.2 r_first (by decide)
  simpa [r_first] using h.1
